import Mathlib

/-!
Verification of the OSHI Bot SDK request-execution and error-classification
layer (file src/sdk/oshi_bot.py) against its natural-language specification.

The Python code is shallowly embedded: dictionaries produced by JSON parsing
become the inductive `Json` type, the exception hierarchy becomes the sum type
`OshiExn` (one constructor per declared exception class), and the network is an
explicit oracle `net : Nat → Request → Attempt` giving, for each attempt index
of one `_request` call, either a transport exception or an HTTP response.
-/

namespace OshiSDK

/-- Parsed JSON value, the result of `resp.json()` in the Python source.
Object fields are an association list; parsed Python dicts have unique keys,
which every concrete instance below respects. -/
inductive Json where
  | null : Json
  | bool (b : Bool) : Json
  | num (n : Int) : Json
  | str (s : String) : Json
  | arr (elems : List Json) : Json
  | obj (fields : List (String × Json)) : Json

/-- First binding of a key in an association list (Python dict lookup). -/
def lookupField : List (String × Json) → String → Option Json
  | [], _ => none
  | (k, v) :: rest, key => if k = key then some v else lookupField rest key

/-- Python `value.get(key, default)`. On a non-dict value Python raises
`AttributeError`; that case is `none` (the callers below turn it into a
`crash` outcome). -/
def Json.pyGet (j : Json) (key : String) (default : Json) : Option Json :=
  match j with
  | .obj fields => some ((lookupField fields key).getD default)
  | _ => none

/-- Python `value[key]` subscription: `none` models the `KeyError` /
`TypeError` raised when the key is missing or the value is not a dict. -/
def Json.pyIndex (j : Json) (key : String) : Option Json :=
  match j with
  | .obj fields => lookupField fields key
  | _ => none

/-- Python `for x in value`: lists yield their elements, dicts their keys,
strings their characters; other values raise `TypeError` (`none`). -/
def pyIter : Json → Option (List Json)
  | .arr xs => some xs
  | .obj fields => some (fields.map (fun kv => Json.str kv.1))
  | .str s => some (s.data.map (fun c => Json.str (String.singleton c)))
  | _ => none

/-- Python `str()` of a parsed-JSON value, as it appears in exception
messages. Scalars are rendered exactly; the `repr`-style rendering of nested
lists and dicts is not modelled (no error message in the source or the spec
puts a container in the `error` field). -/
def pyStr : Json → String
  | .null => "None"
  | .bool b => cond b "True" "False"
  | .num n => toString n
  | .str s => s
  | .arr _ => "<list>"
  | .obj _ => "<dict>"

/-- The exception classes declared in the source: `OshiBotError` (base),
`OshiAuthError`, `OshiRateLimitError`, `OshiGroupError`. Each carries the
string rendering of its single constructor argument. -/
inductive OshiExn where
  | botError (msg : String) : OshiExn
  | authError (msg : String) : OshiExn
  | rateLimitError (msg : String) : OshiExn
  | groupError (msg : String) : OshiExn
deriving DecidableEq, Repr

/-- Message text of an exception, Python `str(e)`. -/
def OshiExn.msg : OshiExn → String
  | .botError m => m
  | .authError m => m
  | .rateLimitError m => m
  | .groupError m => m

/-- An HTTP response: its status code and the outcome of `resp.json()`
(`none` when the body is not valid JSON and `resp.json()` raises
`ValueError`). -/
structure Response where
  status : Nat
  body : Option Json

/-- Transport-level exceptions raised by `self._session.request`:
`requests.ConnectionError` and `requests.Timeout`. -/
inductive TransportExn where
  | connectionError : TransportExn
  | timeout : TransportExn
deriving DecidableEq, Repr

/-- Outcome of one network attempt: a raised transport exception or a
received response. -/
inductive Attempt where
  | exn (e : TransportExn) : Attempt
  | resp (r : Response) : Attempt

/-- Keyword arguments forwarded to `self._session.request`: the `json=` body,
the `params=` query parameters, and the `timeout=` value. -/
structure Kwargs where
  json : Option Json
  params : List (String × String)
  timeout : Option Nat

/-- Client configuration stored by `OshiBot.__init__`. -/
structure OshiBot where
  token : String
  base_url : String
  timeout : Nat
  auto_retry : Bool

/-- Python `s.rstrip("/")`. -/
def rstripSlashes (s : String) : String :=
  String.mk ((s.data.reverse.dropWhile (fun c => c = '/')).reverse)

/-- `OshiBot.__init__`: stores the token, the base URL with trailing slashes
stripped, the timeout and the auto-retry flag. -/
def OshiBot.init (token base_url : String) (timeout : Nat) (auto_retry : Bool) : OshiBot :=
  { token := token, base_url := rstripSlashes base_url, timeout := timeout,
    auto_retry := auto_retry }

/-- A concrete wire request: method, full URL, and keyword arguments. -/
structure Request where
  method : String
  url : String
  kwargs : Kwargs

/-- The request `_request` issues: `url = f"{self.base_url}{endpoint}"` and
`kwargs.setdefault("timeout", self.timeout)`. -/
def OshiBot.builtRequest (bot : OshiBot) (method endpoint : String) (kwargs : Kwargs) :
    Request :=
  { method := method,
    url := bot.base_url ++ endpoint,
    kwargs := { kwargs with timeout := some (kwargs.timeout.getD bot.timeout) } }

/-- Outcome of one `_request` call: a returned JSON body, a raised SDK
exception, or an unclassified Python exception (`crash`, e.g. the
`AttributeError` from `data.get` when the parsed body is not a dict). -/
inductive ReqResult where
  | ok (data : Json) : ReqResult
  | err (e : OshiExn) : ReqResult
  | crash : ReqResult

def ReqResult.isCrash : ReqResult → Bool
  | .crash => true
  | _ => false

/-- Observable trace of one `_request` call: its outcome, the list of wire
requests actually issued (in order), the total seconds slept, and the client
configuration after the call (the source never assigns to `self` fields
inside `_request`). -/
structure ReqTrace where
  result : ReqResult
  issued : List Request
  sleptSeconds : Nat
  self : OshiBot

def rateLimitMsg : String := "Rate limit: max 60 messages/minute"

/-- Status-code classification of a parsed response, source lines 271-287.
Parsing failure is checked first; then 401, 403, 404, other >= 400, else
success. `crash` is the `AttributeError` from `data.get` on a non-dict
body. -/
def classify (resp : Response) : ReqResult :=
  match resp.body with
  | none => .err (.botError ("Invalid response from server (HTTP " ++ toString resp.status ++ ")"))
  | some data =>
    if resp.status = 401 then
      match data.pyGet "error" (.str "Invalid bot token") with
      | some v => .err (.authError (pyStr v))
      | none => .crash
    else if resp.status = 403 then
      match data.pyGet "error" (.str "Bot not assigned to group") with
      | some v => .err (.groupError (pyStr v))
      | none => .crash
    else if resp.status = 404 then
      match data.pyGet "error" (.str "Not found") with
      | some v => .err (.botError (pyStr v))
      | none => .crash
    else if resp.status ≥ 400 then
      match data.pyGet "error" (.str ("HTTP " ++ toString resp.status)) with
      | some v => .err (.botError (pyStr v))
      | none => .crash
    else .ok data

/-- Response in effect after the retry attempt: `except Exception: pass`
keeps the first response when the retried call raises. -/
def retryResp (first : Response) : Attempt → Response
  | .exn _ => first
  | .resp r => r

/-- Continuation after the single retry: a second 429 raises
`OshiRateLimitError`, anything else is parsed and classified. Two requests
were issued and 5 seconds slept. -/
def afterRetry (bot : OshiBot) (req : Request) (resp2 : Response) : ReqTrace :=
  if resp2.status = 429 then
    { result := .err (.rateLimitError rateLimitMsg), issued := [req, req],
      sleptSeconds := 5, self := bot }
  else
    { result := classify resp2, issued := [req, req], sleptSeconds := 5, self := bot }

/-- The 429 branch of `_request`: with auto-retry, sleep 5 s and reissue the
identical request once; without it, raise `OshiRateLimitError` at once. -/
def handle429 (bot : OshiBot) (req : Request) (net : Nat → Request → Attempt)
    (resp : Response) : ReqTrace :=
  if bot.auto_retry then afterRetry bot req (retryResp resp (net 1 req))
  else
    { result := .err (.rateLimitError rateLimitMsg), issued := [req],
      sleptSeconds := 0, self := bot }

/-- Handling of the first attempt: `requests.ConnectionError` and
`requests.Timeout` become `OshiBotError`s; a received response goes through
the 429 branch or straight to classification. -/
def afterFirst (bot : OshiBot) (req : Request) (net : Nat → Request → Attempt) :
    Attempt → ReqTrace
  | .exn .connectionError =>
    { result := .err (.botError ("Connection failed: " ++ req.url)), issued := [req],
      sleptSeconds := 0, self := bot }
  | .exn .timeout =>
    { result := .err (.botError ("Request timed out after " ++ toString bot.timeout ++ "s")),
      issued := [req], sleptSeconds := 0, self := bot }
  | .resp resp =>
    if resp.status = 429 then handle429 bot req net resp
    else { result := classify resp, issued := [req], sleptSeconds := 0, self := bot }

/-- `OshiBot._request`, source lines 248-287. -/
def OshiBot._request (bot : OshiBot) (method endpoint : String) (kwargs : Kwargs)
    (net : Nat → Request → Attempt) : ReqTrace :=
  afterFirst bot (bot.builtRequest method endpoint kwargs) net
    (net 0 (bot.builtRequest method endpoint kwargs))

/-- `OshiBot.send`: POST /api/bot/send with token, groupId, content. The
group id is kept as a JSON value because `send_to_all_groups` forwards
whatever `group["id"]` holds. -/
def OshiBot.send (bot : OshiBot) (group_id : Json) (content : String)
    (net : Nat → Request → Attempt) : ReqTrace :=
  bot._request "POST" "/api/bot/send"
    { json := some (.obj [("token", .str bot.token), ("groupId", group_id),
        ("content", .str content)]),
      params := [], timeout := none } net

/-- `OshiBot.info`: GET /api/bot/info with the token as query parameter. -/
def OshiBot.info (bot : OshiBot) (net : Nat → Request → Attempt) : ReqTrace :=
  bot._request "GET" "/api/bot/info"
    { json := none, params := [("token", bot.token)], timeout := none } net

/-- Outcome of a Python call that may raise: a value, a raised SDK exception,
or an unclassified exception. -/
inductive PyOutcome (α : Type) where
  | ok (v : α) : PyOutcome α
  | raised (e : OshiExn) : PyOutcome α
  | crash : PyOutcome α

/-- The per-group failure record appended by `send_to_all_groups` when a send
raises an `OshiBotError`. -/
def failRecord (gid : Json) (e : OshiExn) : Json :=
  .obj [("success", .bool false), ("groupId", gid), ("error", .str e.msg)]

/-- The loop body of `send_to_all_groups`: for each group, look up its id,
send, and append either the decoded body or a failure record. All four SDK
exception classes are subclasses of `OshiBotError`, so `except OshiBotError`
catches every classified error; an unclassified exception aborts the loop.
`sendNet i` is the network oracle of the i-th send. -/
def sendAllLoop (bot : OshiBot) (content : String)
    (sendNet : Nat → Nat → Request → Attempt) : Nat → List Json → PyOutcome (List Json)
  | _, [] => .ok []
  | i, g :: gs =>
    match g.pyIndex "id" with
    | none => .crash
    | some gid =>
      match (bot.send gid content (sendNet i)).result with
      | .crash => .crash
      | .ok data =>
        match sendAllLoop bot content sendNet (i + 1) gs with
        | .ok rest => .ok (data :: rest)
        | .raised e => .raised e
        | .crash => .crash
      | .err e =>
        match sendAllLoop bot content sendNet (i + 1) gs with
        | .ok rest => .ok (failRecord gid e :: rest)
        | .raised e2 => .raised e2
        | .crash => .crash

/-- `OshiBot.send_to_all_groups`, source lines 199-222: fetch info, iterate
over `bot_info.get("bot", {}).get("groups", [])`, and collect one result per
group. -/
def OshiBot.send_to_all_groups (bot : OshiBot) (content : String)
    (infoNet : Nat → Request → Attempt) (sendNet : Nat → Nat → Request → Attempt) :
    PyOutcome (List Json) :=
  match (bot.info infoNet).result with
  | .err e => .raised e
  | .crash => .crash
  | .ok bot_info =>
    match bot_info.pyGet "bot" (.obj []) with
    | none => .crash
    | some botVal =>
      match botVal.pyGet "groups" (.arr []) with
      | none => .crash
      | some groupsVal =>
        match pyIter groupsVal with
        | none => .crash
        | some gs => sendAllLoop bot content sendNet 0 gs

/-- A single quote character, used by `__repr__`. -/
def sq : String := String.singleton (Char.ofNat 39)

/-- `OshiBot.__repr__`, source lines 289-290: shows `self.token[:8]` followed
by an ellipsis, and the base URL. -/
def OshiBot.pyRepr (bot : OshiBot) : String :=
  "OshiBot(token=" ++ sq ++ bot.token.take 8 ++ "..." ++ sq ++ ", base_url=" ++ sq
    ++ bot.base_url ++ sq ++ ")"

/-! Helper lemmas about the request executor. -/

theorem afterFirst_self (bot : OshiBot) (req : Request) (net : Nat → Request → Attempt)
    (a : Attempt) : (afterFirst bot req net a).self = bot := by
  cases a with
  | exn e => cases e <;> rfl
  | resp r =>
    simp only [afterFirst, handle429, afterRetry]
    split_ifs <;> rfl

theorem afterFirst_issued (bot : OshiBot) (req : Request) (net : Nat → Request → Attempt)
    (a : Attempt) :
    (afterFirst bot req net a).issued =
      List.replicate (afterFirst bot req net a).issued.length req := by
  cases a with
  | exn e => cases e <;> rfl
  | resp r =>
    simp only [afterFirst, handle429, afterRetry]
    split_ifs <;> rfl

/-! Concrete fixtures used by witnesses and counterexamples. -/

/-- Network oracle answering `a` on the first attempt and `b` on any later
attempt. -/
def netOf (a b : Attempt) : Nat → Request → Attempt
  | 0, _ => a
  | _ + 1, _ => b

def botR : OshiBot := OshiBot.init "a1b2c3d4e5f6g7h8" "https://example.com/" 10 true

def botN : OshiBot := OshiBot.init "a1b2c3d4e5f6g7h8" "https://example.com" 10 false

def kw0 : Kwargs := { json := none, params := [], timeout := none }

def resp429 : Response := { status := 429, body := some (.obj [("error", .str "slow down")]) }

def okBody : Json := .obj [("success", .bool true), ("delivered", .num 3)]

def resp200 : Response := { status := 200, body := some okBody }

/-! Claims. -/

/-- Claim C3: with the retry flag enabled and 429 on both attempts, exactly
two attempts are issued (the second an identical reissue after a 5-second
sleep) and the call fails with the rate-limit error; with the flag disabled a
429 causes exactly one attempt and the same error. -/
theorem C3_rate_limit_retry_counts (bot : OshiBot) (method endpoint : String)
    (kwargs : Kwargs) (net : Nat → Request → Attempt) (r1 r2 : Response)
    (h1 : net 0 (bot.builtRequest method endpoint kwargs) = .resp r1)
    (hs1 : r1.status = 429) :
    (bot.auto_retry = true →
      net 1 (bot.builtRequest method endpoint kwargs) = .resp r2 → r2.status = 429 →
      bot._request method endpoint kwargs net =
        { result := .err (.rateLimitError rateLimitMsg),
          issued := [bot.builtRequest method endpoint kwargs,
                     bot.builtRequest method endpoint kwargs],
          sleptSeconds := 5, self := bot }) ∧
    (bot.auto_retry = false →
      bot._request method endpoint kwargs net =
        { result := .err (.rateLimitError rateLimitMsg),
          issued := [bot.builtRequest method endpoint kwargs],
          sleptSeconds := 0, self := bot }) := by
  constructor
  · intro hretry h2 hs2
    simp [OshiBot._request, afterFirst, h1, hs1, handle429, hretry, h2, retryResp,
      afterRetry, hs2]
  · intro hretry
    simp [OshiBot._request, afterFirst, h1, hs1, handle429, hretry]

theorem C3_rate_limit_retry_counts_witness :
    (botR._request "POST" "/api/bot/send" kw0 (netOf (.resp resp429) (.resp resp429)) =
      { result := .err (.rateLimitError rateLimitMsg),
        issued := [botR.builtRequest "POST" "/api/bot/send" kw0,
                   botR.builtRequest "POST" "/api/bot/send" kw0],
        sleptSeconds := 5, self := botR }) ∧
    (botN._request "POST" "/api/bot/send" kw0 (netOf (.resp resp429) (.resp resp429)) =
      { result := .err (.rateLimitError rateLimitMsg),
        issued := [botN.builtRequest "POST" "/api/bot/send" kw0],
        sleptSeconds := 0, self := botN }) :=
  ⟨(C3_rate_limit_retry_counts botR "POST" "/api/bot/send" kw0
      (netOf (.resp resp429) (.resp resp429)) resp429 resp429 rfl rfl).1 rfl rfl rfl,
   (C3_rate_limit_retry_counts botN "POST" "/api/bot/send" kw0
      (netOf (.resp resp429) (.resp resp429)) resp429 resp429 rfl rfl).2 rfl⟩

/-- Claim C4: a 429 first attempt with retry enabled, followed by a 200
response with a JSON body on the retry, succeeds with the second response's
parsed body. -/
theorem C4_retry_then_success (bot : OshiBot) (method endpoint : String) (kwargs : Kwargs)
    (net : Nat → Request → Attempt) (r1 : Response) (d : Json)
    (hretry : bot.auto_retry = true)
    (h1 : net 0 (bot.builtRequest method endpoint kwargs) = .resp r1)
    (hs1 : r1.status = 429)
    (h2 : net 1 (bot.builtRequest method endpoint kwargs) =
      .resp { status := 200, body := some d }) :
    bot._request method endpoint kwargs net =
      { result := .ok d,
        issued := [bot.builtRequest method endpoint kwargs,
                   bot.builtRequest method endpoint kwargs],
        sleptSeconds := 5, self := bot } := by
  simp [OshiBot._request, afterFirst, h1, hs1, handle429, hretry, retryResp, h2,
    afterRetry, classify]

theorem C4_retry_then_success_witness :
    botR._request "POST" "/api/bot/send" kw0 (netOf (.resp resp429) (.resp resp200)) =
      { result := .ok okBody,
        issued := [botR.builtRequest "POST" "/api/bot/send" kw0,
                   botR.builtRequest "POST" "/api/bot/send" kw0],
        sleptSeconds := 5, self := botR } :=
  C4_retry_then_success botR "POST" "/api/bot/send" kw0
    (netOf (.resp resp429) (.resp resp200)) resp429 okBody rfl rfl rfl rfl

/-- Claim C5 counterexample input: a timeout on the initial attempt. The
claim says the Transport error carries the target address and cause, but the
timeout message produced by source line 257 is "Request timed out after
{timeout}s", and the target address is not a substring of it. -/
theorem C5_transport_failure_counterexample :
    (botR._request "GET" "/api/bot/info" kw0
        (netOf (.exn .timeout) (.resp resp200))).result =
      .err (.botError "Request timed out after 10s") ∧
    ¬ List.IsInfix (botR.builtRequest "GET" "/api/bot/info" kw0).url.data
      "Request timed out after 10s".data :=
  ⟨rfl, by decide⟩

/-- Claim C5 (amended): a transport failure on the initial attempt
(connection refused or timeout) fails with a base-class error, after exactly
one attempt and without entering the rate-limit retry path (no sleep, no
reissue); the connection-failure message carries the target address, while
the timeout message carries only the configured timeout duration. -/
theorem C5_transport_failure_no_retry (bot : OshiBot) (method endpoint : String)
    (kwargs : Kwargs) (net : Nat → Request → Attempt) :
    (net 0 (bot.builtRequest method endpoint kwargs) = .exn .connectionError →
      bot._request method endpoint kwargs net =
        { result := .err (.botError
            ("Connection failed: " ++ (bot.builtRequest method endpoint kwargs).url)),
          issued := [bot.builtRequest method endpoint kwargs],
          sleptSeconds := 0, self := bot }) ∧
    (net 0 (bot.builtRequest method endpoint kwargs) = .exn .timeout →
      bot._request method endpoint kwargs net =
        { result := .err (.botError
            ("Request timed out after " ++ toString bot.timeout ++ "s")),
          issued := [bot.builtRequest method endpoint kwargs],
          sleptSeconds := 0, self := bot }) := by
  constructor <;> intro h <;> simp [OshiBot._request, afterFirst, h]

theorem C5_transport_failure_no_retry_witness :
    botR._request "GET" "/api/bot/info" kw0
        (netOf (.exn .connectionError) (.resp resp200)) =
      { result := .err (.botError "Connection failed: https://example.com/api/bot/info"),
        issued := [botR.builtRequest "GET" "/api/bot/info" kw0],
        sleptSeconds := 0, self := botR } :=
  (C5_transport_failure_no_retry botR "GET" "/api/bot/info" kw0
    (netOf (.exn .connectionError) (.resp resp200))).1 rfl

/-- Claim C9: no operation mutates the client configuration, and every wire
request a `_request` call issues (the retry included) is the one identical
built request: same method, same URL, same payload. -/
theorem C9_config_immutable_identical_requests (bot : OshiBot) (method endpoint : String)
    (kwargs : Kwargs) (group_id : Json) (content : String)
    (net : Nat → Request → Attempt) :
    (bot._request method endpoint kwargs net).self = bot ∧
    (bot._request method endpoint kwargs net).issued =
      List.replicate (bot._request method endpoint kwargs net).issued.length
        (bot.builtRequest method endpoint kwargs) ∧
    (bot.send group_id content net).self = bot ∧
    (bot.info net).self = bot := by
  refine ⟨?_, ?_, ?_, ?_⟩
  · exact afterFirst_self bot (bot.builtRequest method endpoint kwargs) net _
  · exact afterFirst_issued bot (bot.builtRequest method endpoint kwargs) net _
  · exact afterFirst_self bot _ net _
  · exact afterFirst_self bot _ net _

/-- Claim C10: when the first attempt returns 429, retry is enabled, and the
retried request raises a transport exception, the exception is suppressed and
the call fails with the rate-limit error derived from the stored first
response, not with a transport error. -/
theorem C10_retry_exception_suppressed (bot : OshiBot) (method endpoint : String)
    (kwargs : Kwargs) (net : Nat → Request → Attempt) (r1 : Response) (ex : TransportExn)
    (hretry : bot.auto_retry = true)
    (h1 : net 0 (bot.builtRequest method endpoint kwargs) = .resp r1)
    (hs1 : r1.status = 429)
    (h2 : net 1 (bot.builtRequest method endpoint kwargs) = .exn ex) :
    bot._request method endpoint kwargs net =
      { result := .err (.rateLimitError rateLimitMsg),
        issued := [bot.builtRequest method endpoint kwargs,
                   bot.builtRequest method endpoint kwargs],
        sleptSeconds := 5, self := bot } := by
  simp [OshiBot._request, afterFirst, h1, hs1, handle429, hretry, h2, retryResp,
    afterRetry]

theorem C10_retry_exception_suppressed_witness :
    botR._request "POST" "/api/bot/send" kw0 (netOf (.resp resp429) (.exn .timeout)) =
      { result := .err (.rateLimitError rateLimitMsg),
        issued := [botR.builtRequest "POST" "/api/bot/send" kw0,
                   botR.builtRequest "POST" "/api/bot/send" kw0],
        sleptSeconds := 5, self := botR } :=
  C10_retry_exception_suppressed botR "POST" "/api/bot/send" kw0
    (netOf (.resp resp429) (.exn .timeout)) resp429 .timeout rfl rfl rfl rfl

def resp500 : Response := { status := 500, body := some (.obj [("error", .str "boom")]) }

/-- Claim C1 counterexample input: a 500 response whose body parses as JSON
(`[]`) but is not an object. `data.get("error", ...)` then raises
`AttributeError`, an unclassified exception instead of the generic API
error the claim promises. -/
theorem C1_status_classification_counterexample :
    (botR._request "POST" "/api/bot/send" kw0
        (netOf (.resp { status := 500, body := some (.arr []) }) (.resp resp200))).result =
      .crash := rfl

/-- Claim C1 (amended: the body must parse as a JSON object): classification
is by status code in fixed priority order 401, 403, 404, any other status at
least 400 (with the server-supplied message when present, a status-derived
default otherwise), and any other status below 400 succeeds returning the
parsed body unchanged. -/
theorem C1_status_classification_amended (bot : OshiBot) (method endpoint : String)
    (kwargs : Kwargs) (net : Nat → Request → Attempt) (s : Nat)
    (fields : List (String × Json))
    (h1 : net 0 (bot.builtRequest method endpoint kwargs) =
      .resp { status := s, body := some (.obj fields) })
    (hs : s ≠ 429) :
    (s = 401 →
      (bot._request method endpoint kwargs net).result =
        .err (.authError
          (pyStr ((lookupField fields "error").getD (.str "Invalid bot token"))))) ∧
    (s = 403 →
      (bot._request method endpoint kwargs net).result =
        .err (.groupError
          (pyStr ((lookupField fields "error").getD (.str "Bot not assigned to group"))))) ∧
    (s = 404 →
      (bot._request method endpoint kwargs net).result =
        .err (.botError (pyStr ((lookupField fields "error").getD (.str "Not found"))))) ∧
    (s ≠ 401 → s ≠ 403 → s ≠ 404 → s ≥ 400 →
      (bot._request method endpoint kwargs net).result =
        .err (.botError
          (pyStr ((lookupField fields "error").getD (.str ("HTTP " ++ toString s)))))) ∧
    (s < 400 →
      (bot._request method endpoint kwargs net).result = .ok (.obj fields)) := by
  refine ⟨?_, ?_, ?_, ?_, ?_⟩
  · intro h401
    subst h401
    simp [OshiBot._request, afterFirst, h1, classify, Json.pyGet]
  · intro h403
    subst h403
    simp [OshiBot._request, afterFirst, h1, classify, Json.pyGet]
  · intro h404
    subst h404
    simp [OshiBot._request, afterFirst, h1, classify, Json.pyGet]
  · intro h401 h403 h404 h400
    simp [OshiBot._request, afterFirst, h1, hs, classify, Json.pyGet, h401, h403, h404,
      h400]
  · intro hlt
    have h401 : s ≠ 401 := by omega
    have h403 : s ≠ 403 := by omega
    have h404 : s ≠ 404 := by omega
    have h400 : ¬s ≥ 400 := by omega
    simp [OshiBot._request, afterFirst, h1, hs, classify, Json.pyGet, h401, h403, h404,
      h400]

theorem C1_status_classification_amended_witness :
    (botR._request "POST" "/api/bot/send" kw0 (netOf (.resp resp500) (.resp resp200))).result =
      .err (.botError "boom") :=
  (C1_status_classification_amended botR "POST" "/api/bot/send" kw0
    (netOf (.resp resp500) (.resp resp200)) 500 [("error", .str "boom")] rfl
    (by decide)).2.2.2.1 (by decide) (by decide) (by decide) (by decide)

/-- Claim C2 counterexample input: a 401 response whose body parses as JSON
(`[1]`) but is not an object. Classification crashes with `AttributeError`
instead of yielding the Auth error the claim promises for every
JSON-parseable body. -/
theorem C2_auth_precedence_counterexample :
    (botR._request "GET" "/api/bot/info" kw0
        (netOf (.resp { status := 401, body := some (.arr [.num 1]) })
          (.resp resp200))).result =
      .crash := rfl

/-- Claim C2 (amended: the body must parse as a JSON object): a 401 response
with an object body always classifies as Auth regardless of the body's
content, and a 401 response whose body does not parse as JSON at all yields
the Protocol (invalid-response) error, i.e. body parsing precedes status
classification. -/
theorem C2_auth_precedence_amended (bot : OshiBot) (method endpoint : String)
    (kwargs : Kwargs) (net : Nat → Request → Attempt) :
    (∀ fields : List (String × Json),
      net 0 (bot.builtRequest method endpoint kwargs) =
          .resp { status := 401, body := some (.obj fields) } →
      (bot._request method endpoint kwargs net).result =
        .err (.authError
          (pyStr ((lookupField fields "error").getD (.str "Invalid bot token"))))) ∧
    (net 0 (bot.builtRequest method endpoint kwargs) =
        .resp { status := 401, body := none } →
      (bot._request method endpoint kwargs net).result =
        .err (.botError "Invalid response from server (HTTP 401)")) := by
  constructor
  · intro fields h1
    simp [OshiBot._request, afterFirst, h1, classify, Json.pyGet]
  · intro h1
    simp [OshiBot._request, afterFirst, h1, classify]
    rfl

theorem C2_auth_precedence_amended_witness :
    ((botR._request "GET" "/api/bot/info" kw0
        (netOf (.resp { status := 401, body := some (.obj [("error", .str "bad token")]) })
          (.resp resp200))).result =
      .err (.authError "bad token")) ∧
    ((botR._request "GET" "/api/bot/info" kw0
        (netOf (.resp { status := 401, body := none }) (.resp resp200))).result =
      .err (.botError "Invalid response from server (HTTP 401)")) :=
  ⟨(C2_auth_precedence_amended botR "GET" "/api/bot/info" kw0
      (netOf (.resp { status := 401, body := some (.obj [("error", .str "bad token")]) })
        (.resp resp200))).1 [("error", .str "bad token")] rfl,
   (C2_auth_precedence_amended botR "GET" "/api/bot/info" kw0
      (netOf (.resp { status := 401, body := none }) (.resp resp200))).2 rfl⟩

/-! Specification-side failure taxonomy (spec sections 4.1 and 7), used to
compare the code's surfaced exceptions against the spec's classification. -/

inductive FailureKind where
  | transport : FailureKind
  | protocolFailure : FailureKind
  | auth : FailureKind
  | groupAssignment : FailureKind
  | notFound : FailureKind
  | rateLimit : FailureKind
  | genericApi : FailureKind
deriving DecidableEq, Repr

/-- Taxonomy member of one classified response, following the words of spec
section 4.1: unparseable body is Protocol, then 401 Auth, 403
GroupAssignment, 404 NotFound, any other status at least 400 a generic API
error, otherwise success (`none`). -/
def specClassify (r : Response) : Option FailureKind :=
  match r.body with
  | none => some .protocolFailure
  | some _ =>
    if r.status = 401 then some .auth
    else if r.status = 403 then some .groupAssignment
    else if r.status = 404 then some .notFound
    else if r.status ≥ 400 then some .genericApi
    else none

/-- Taxonomy member of a whole executor run, following spec sections 4.1 and
7: transport failure first, then the 429 single-retry policy, then response
classification. -/
def specTaxonomy (autoRetry : Bool) (a1 a2 : Attempt) : Option FailureKind :=
  match a1 with
  | .exn _ => some .transport
  | .resp r1 =>
    if r1.status = 429 then
      if autoRetry then
        match a2 with
        | .exn _ => some .rateLimit
        | .resp r2 => if r2.status = 429 then some .rateLimit else specClassify r2
      else some .rateLimit
    else specClassify r1

/-- Which exception class each taxonomy member surfaces as in the source:
Auth, GroupAssignment and RateLimit have their own classes; Transport,
Protocol, NotFound and generic API failures all use the base class. -/
def kindMatches : FailureKind → OshiExn → Bool
  | .auth, .authError _ => true
  | .groupAssignment, .groupError _ => true
  | .rateLimit, .rateLimitError _ => true
  | .transport, .botError _ => true
  | .protocolFailure, .botError _ => true
  | .notFound, .botError _ => true
  | .genericApi, .botError _ => true
  | _, _ => false

/-- A response body that is absent (unparseable) or a JSON object, the
fragment on which classification does not crash. -/
def Response.objOrUnparsed (r : Response) : Bool :=
  match r.body with
  | none => true
  | some (.obj _) => true
  | some _ => false

def Attempt.objOrUnparsed : Attempt → Bool
  | .exn _ => true
  | .resp r => r.objOrUnparsed

theorem classify_matches_spec (r : Response) (k : FailureKind)
    (hb : r.objOrUnparsed = true) (hk : specClassify r = some k) :
    ∃ e, classify r = .err e ∧ kindMatches k e = true := by
  obtain ⟨s, body⟩ := r
  cases body with
  | none =>
    simp [specClassify] at hk
    subst hk
    exact ⟨.botError ("Invalid response from server (HTTP " ++ toString s ++ ")"), rfl, rfl⟩
  | some data =>
    cases data with
    | obj fields =>
      by_cases h401 : s = 401
      · subst h401
        simp [specClassify] at hk
        subst hk
        exact ⟨.authError (pyStr ((lookupField fields "error").getD
          (.str "Invalid bot token"))), rfl, rfl⟩
      · by_cases h403 : s = 403
        · subst h403
          simp [specClassify] at hk
          subst hk
          exact ⟨.groupError (pyStr ((lookupField fields "error").getD
            (.str "Bot not assigned to group"))), rfl, rfl⟩
        · by_cases h404 : s = 404
          · subst h404
            simp [specClassify] at hk
            subst hk
            exact ⟨.botError (pyStr ((lookupField fields "error").getD
              (.str "Not found"))), rfl, rfl⟩
          · by_cases h400 : s ≥ 400
            · simp [specClassify, h401, h403, h404, h400] at hk
              subst hk
              refine ⟨.botError (pyStr ((lookupField fields "error").getD
                (.str ("HTTP " ++ toString s)))), ?_, rfl⟩
              simp [classify, Json.pyGet, h401, h403, h404, h400]
            · simp [specClassify, h401, h403, h404, h400] at hk
    | null => simp [Response.objOrUnparsed] at hb
    | bool b => simp [Response.objOrUnparsed] at hb
    | num n => simp [Response.objOrUnparsed] at hb
    | str t => simp [Response.objOrUnparsed] at hb
    | arr xs => simp [Response.objOrUnparsed] at hb

/-- Claim C7 counterexample input: a 404 response and a 500 response, both
with server message "gone". The NotFound failure and the generic API failure
surface as the identical value (base class, same message), so these two
distinct taxonomy members are not distinguishable by the caller. -/
theorem C7_distinct_surfacing_counterexample :
    ((botR._request "GET" "/api/bot/info" kw0
        (netOf (.resp { status := 404, body := some (.obj [("error", .str "gone")]) })
          (.resp resp200))).result = .err (.botError "gone")) ∧
    ((botR._request "POST" "/api/bot/send" kw0
        (netOf (.resp { status := 500, body := some (.obj [("error", .str "gone")]) })
          (.resp resp200))).result = .err (.botError "gone")) :=
  ⟨rfl, rfl⟩

/-- Claim C7 (amended): the executor never swallows a failure: on the
fragment where bodies parse to objects or fail to parse, every run the spec
taxonomy classifies as a failure surfaces an exception, and that exception is
the distinct Auth, GroupAssignment or RateLimit class for those members,
while Transport, Protocol, NotFound and generic API failures all surface as
the base class (distinguishable from success, but not pairwise: their
messages can coincide). -/
theorem C7_error_surfacing_amended (bot : OshiBot) (method endpoint : String)
    (kwargs : Kwargs) (net : Nat → Request → Attempt) (k : FailureKind)
    (hb1 : (net 0 (bot.builtRequest method endpoint kwargs)).objOrUnparsed = true)
    (hb2 : (net 1 (bot.builtRequest method endpoint kwargs)).objOrUnparsed = true)
    (hk : specTaxonomy bot.auto_retry (net 0 (bot.builtRequest method endpoint kwargs))
        (net 1 (bot.builtRequest method endpoint kwargs)) = some k) :
    ∃ e, (bot._request method endpoint kwargs net).result = .err e ∧
      kindMatches k e = true := by
  unfold OshiBot._request
  cases h1 : net 0 (bot.builtRequest method endpoint kwargs) with
  | exn ex =>
    rw [h1] at hk
    simp [specTaxonomy] at hk
    subst hk
    cases ex
    · exact ⟨.botError ("Connection failed: " ++ (bot.builtRequest method endpoint kwargs).url),
        by simp [afterFirst], rfl⟩
    · exact ⟨.botError ("Request timed out after " ++ toString bot.timeout ++ "s"),
        by simp [afterFirst], rfl⟩
  | resp r1 =>
    rw [h1] at hk hb1
    simp [Attempt.objOrUnparsed] at hb1
    by_cases h429 : r1.status = 429
    · simp only [specTaxonomy] at hk
      rw [if_pos h429] at hk
      by_cases hr : bot.auto_retry
      · rw [if_pos hr] at hk
        cases h2 : net 1 (bot.builtRequest method endpoint kwargs) with
        | exn ex2 =>
          rw [h2] at hk
          simp at hk
          subst hk
          exact ⟨.rateLimitError rateLimitMsg, by simp [afterFirst, h429, handle429, hr,
            h2, retryResp, afterRetry], rfl⟩
        | resp r2 =>
          rw [h2] at hk hb2
          simp [Attempt.objOrUnparsed] at hb2
          by_cases h429b : r2.status = 429
          · simp [h429b] at hk
            subst hk
            exact ⟨.rateLimitError rateLimitMsg, by simp [afterFirst, h429, handle429,
              hr, h2, retryResp, afterRetry, h429b], rfl⟩
          · simp [h429b] at hk
            obtain ⟨e, hc, hm⟩ := classify_matches_spec r2 k hb2 hk
            exact ⟨e, by simp [afterFirst, h429, handle429, hr, h2, retryResp,
              afterRetry, h429b, hc], hm⟩
      · rw [if_neg hr] at hk
        simp at hk
        subst hk
        have hrf : bot.auto_retry = false := by
          cases hv : bot.auto_retry
          · rfl
          · exact absurd hv hr
        exact ⟨.rateLimitError rateLimitMsg,
          by simp [afterFirst, h429, handle429, hrf], rfl⟩
    · simp only [specTaxonomy] at hk
      rw [if_neg h429] at hk
      obtain ⟨e, hc, hm⟩ := classify_matches_spec r1 k hb1 hk
      exact ⟨e, by simp [afterFirst, h429, hc], hm⟩

theorem C7_error_surfacing_amended_witness :
    ∃ e, (botR._request "GET" "/api/bot/info" kw0
        (netOf (.exn .connectionError) (.resp resp200))).result = .err e ∧
      kindMatches .transport e = true :=
  C7_error_surfacing_amended botR "GET" "/api/bot/info" kw0
    (netOf (.exn .connectionError) (.resp resp200)) .transport rfl rfl rfl

/-- Claim C8 counterexample input: the 5-character token "short". Python
`token[:8]` returns the whole token, so the display form contains the full
secret token as a substring. -/
theorem C8_repr_counterexample :
    List.IsInfix (OshiBot.init "short" "https://example.com" 10 true).token.data
      (OshiBot.init "short" "https://example.com" 10 true).pyRepr.data := by
  decide

/-- Claim C8 (amended): the display form depends on the token only through
its first 8 characters: two clients with the same base address, timeout and
retry flag whose tokens agree on their first 8 characters have identical
display forms. A token of more than 8 characters is therefore never revealed
in full, but a token of at most 8 characters still appears whole. -/
theorem C8_repr_truncates_token_amended (t1 t2 u : String) (tmo : Nat) (ar : Bool)
    (h : t1.take 8 = t2.take 8) :
    (OshiBot.mk t1 u tmo ar).pyRepr = (OshiBot.mk t2 u tmo ar).pyRepr := by
  simp [OshiBot.pyRepr, h]

theorem C8_repr_truncates_token_amended_witness :
    (OshiBot.mk "a1b2c3d4SECRETKEY" "https://example.com" 10 true).pyRepr =
      (OshiBot.mk "a1b2c3d4DIFFERENT" "https://example.com" 10 true).pyRepr :=
  C8_repr_truncates_token_amended "a1b2c3d4SECRETKEY" "a1b2c3d4DIFFERENT"
    "https://example.com" 10 true rfl

/-! Characterization of the send-to-all-groups loop. -/

/-- The entry `send_to_all_groups` appends for one group, as a function of
the send outcome (the `crash` case never occurs under the hypotheses used
below). -/
def entryOf (gid : Json) (r : ReqResult) : Json :=
  match r with
  | .ok d => d
  | .err e => failRecord gid e
  | .crash => .null

/-- The list of entries for groups at indices `i, i+1, ..., i+n-1`, given the
id and send outcome of every index. -/
def expectedEntries (gid : Nat → Json) (out : Nat → ReqResult) : Nat → Nat → List Json
  | _, 0 => []
  | i, n + 1 => entryOf (gid i) (out i) :: expectedEntries gid out (i + 1) n

theorem expectedEntries_length (gid : Nat → Json) (out : Nat → ReqResult) :
    ∀ (n i : Nat), (expectedEntries gid out i n).length = n := by
  intro n
  induction n with
  | zero => intro i; rfl
  | succ n ih => intro i; simp [expectedEntries, ih (i + 1)]

theorem expectedEntries_get (gid : Nat → Json) (out : Nat → ReqResult) :
    ∀ (n i j : Nat) (h2 : j < (expectedEntries gid out i n).length),
      (expectedEntries gid out i n).get ⟨j, h2⟩ = entryOf (gid (i + j)) (out (i + j)) := by
  intro n
  induction n with
  | zero =>
    intro i j h2
    simp [expectedEntries] at h2
  | succ n ih =>
    intro i j h2
    cases j with
    | zero => rfl
    | succ j =>
      have h3 : j < (expectedEntries gid out (i + 1) n).length := by
        simpa [expectedEntries, expectedEntries_length] using h2
      have hrec := ih (i + 1) j h3
      have e : i + 1 + j = i + (j + 1) := by omega
      rw [e] at hrec
      exact hrec

theorem sendAllLoop_spec (bot : OshiBot) (content : String)
    (sendNet : Nat → Nat → Request → Attempt) (gid : Nat → Json)
    (out : Nat → ReqResult) :
    ∀ (gs : List Json) (i : Nat),
      (∀ j (hj : j < gs.length), (gs.get ⟨j, hj⟩).pyIndex "id" = some (gid (i + j))) →
      (∀ j (_hj : j < gs.length),
        (bot.send (gid (i + j)) content (sendNet (i + j))).result = out (i + j)) →
      (∀ j (_hj : j < gs.length), (out (i + j)).isCrash = false) →
      sendAllLoop bot content sendNet i gs = .ok (expectedEntries gid out i gs.length) := by
  intro gs
  induction gs with
  | nil => intro i _ _ _; rfl
  | cons g gs ih =>
    intro i hids hout hcrash
    have hid0 : g.pyIndex "id" = some (gid i) := hids 0 (Nat.succ_pos gs.length)
    have hout0 : (bot.send (gid i) content (sendNet i)).result = out i :=
      hout 0 (Nat.succ_pos gs.length)
    have hcrash0 : (out i).isCrash = false := hcrash 0 (Nat.succ_pos gs.length)
    have hrec := ih (i + 1)
      (fun j hj => by
        have h2 := hids (j + 1) (Nat.succ_lt_succ hj)
        have e : i + (j + 1) = i + 1 + j := by omega
        rw [e] at h2
        exact h2)
      (fun j hj => by
        have h2 := hout (j + 1) (Nat.succ_lt_succ hj)
        have e : i + (j + 1) = i + 1 + j := by omega
        rw [e] at h2
        exact h2)
      (fun j hj => by
        have h2 := hcrash (j + 1) (Nat.succ_lt_succ hj)
        have e : i + (j + 1) = i + 1 + j := by omega
        rw [e] at h2
        exact h2)
    cases hv : out i with
    | crash =>
      rw [hv] at hcrash0
      simp [ReqResult.isCrash] at hcrash0
    | ok d =>
      simp [sendAllLoop, hid0, hout0, hv, hrec, expectedEntries, entryOf]
    | err e =>
      simp [sendAllLoop, hid0, hout0, hv, hrec, expectedEntries, entryOf]

/-- Claim C6: over the N groups returned by the bot's info, if the send to
group K fails with a classified error and every other send succeeds, the
aggregated result has length N, entry K is a failure record carrying the
group's id and the error message, every other entry is that group's decoded
response body, and no failure aborts the remaining sends. -/
theorem C6_send_to_all_partial_failure (bot : OshiBot) (content : String)
    (infoNet : Nat → Request → Attempt) (sendNet : Nat → Nat → Request → Attempt)
    (bot_info botVal : Json) (gs : List Json) (gid : Nat → Json) (K : Nat)
    (eK : OshiExn) (body : Nat → Json)
    (hinfo : (bot.info infoNet).result = .ok bot_info)
    (hbot : bot_info.pyGet "bot" (.obj []) = some botVal)
    (hgroups : botVal.pyGet "groups" (.arr []) = some (.arr gs))
    (hids : ∀ j (hj : j < gs.length), (gs.get ⟨j, hj⟩).pyIndex "id" = some (gid j))
    (hK : K < gs.length)
    (hfail : (bot.send (gid K) content (sendNet K)).result = .err eK)
    (hok : ∀ j (_hj : j < gs.length), j ≠ K →
      (bot.send (gid j) content (sendNet j)).result = .ok (body j)) :
    ∃ res : List Json,
      bot.send_to_all_groups content infoNet sendNet = .ok res ∧
      res.length = gs.length ∧
      (∀ h : K < res.length, res.get ⟨K, h⟩ = failRecord (gid K) eK) ∧
      (∀ j (hj : j < res.length), j ≠ K → res.get ⟨j, hj⟩ = body j) := by
  have hloop := sendAllLoop_spec bot content sendNet gid
    (fun j => if j = K then .err eK else .ok (body j)) gs 0
    (fun j hj => by rw [Nat.zero_add]; exact hids j hj)
    (fun j hj => by
      rw [Nat.zero_add]
      by_cases hjK : j = K
      · subst hjK
        simp [hfail]
      · simp [hjK, hok j hj hjK])
    (fun j hj => by
      rw [Nat.zero_add]
      by_cases hjK : j = K <;> simp [hjK, ReqResult.isCrash])
  refine ⟨expectedEntries gid (fun j => if j = K then .err eK else .ok (body j)) 0 gs.length,
    ?_, ?_, ?_, ?_⟩
  · simp [OshiBot.send_to_all_groups, hinfo, hbot, hgroups, pyIter, hloop]
  · exact expectedEntries_length gid _ gs.length 0
  · intro h
    have hg := expectedEntries_get gid
      (fun j => if j = K then .err eK else .ok (body j)) gs.length 0 K h
    simpa [entryOf] using hg
  · intro j hj hjK
    have hg := expectedEntries_get gid
      (fun j => if j = K then .err eK else .ok (body j)) gs.length 0 j hj
    simpa [entryOf, hjK] using hg

/-! Concrete fixtures for the C6 witness: two groups, the first send is
rejected with 403, the second succeeds. -/

def gsW : List Json :=
  [.obj [("id", .str "g0"), ("name", .str "Alpha")],
   .obj [("id", .str "g1"), ("name", .str "Beta")]]

def botValW : Json := .obj [("groups", .arr gsW)]

def groupsBody : Json := .obj [("bot", botValW)]

def infoNetW : Nat → Request → Attempt :=
  netOf (.resp { status := 200, body := some groupsBody }) (.resp resp200)

def sendNetW : Nat → Nat → Request → Attempt
  | 0 => netOf (.resp { status := 403, body := some (.obj [("error", .str "nope")]) })
      (.resp resp200)
  | _ + 1 => netOf (.resp resp200) (.resp resp200)

def gidW : Nat → Json
  | 0 => .str "g0"
  | _ + 1 => .str "g1"

theorem C6_send_to_all_partial_failure_witness :
    ∃ res : List Json,
      botR.send_to_all_groups "hello" infoNetW sendNetW = .ok res ∧
      res.length = gsW.length ∧
      (∀ h : 0 < res.length, res.get ⟨0, h⟩ = failRecord (.str "g0") (.groupError "nope")) ∧
      (∀ j (hj : j < res.length), j ≠ 0 → res.get ⟨j, hj⟩ = okBody) :=
  C6_send_to_all_partial_failure botR "hello" infoNetW sendNetW groupsBody botValW gsW
    gidW 0 (.groupError "nope") (fun _ => okBody) rfl rfl rfl
    (by
      intro j hj
      have hj2 : j < 2 := hj
      interval_cases j <;> rfl)
    (by decide)
    rfl
    (by
      intro j hj hne
      cases j with
      | zero => exact absurd rfl hne
      | succ j => rfl)

end OshiSDK
